import Mathlib

/-
Verification development for the AccessViz toolbox (src/AccessViz.py).

The Python source works on geopandas/pandas data frames.  The shallow
embedding below models a data frame as a list of column names together
with a list of rows, where a row is an association list from column
names to cell values.  A cell value is either an integer measurement
(the travel-time matrix columns and the YKR_ID key) or an abstract
geometry token.  File-system reads (gpd.read_file, pd.read_csv) are
modelled as explicit function parameters mapping a path to the frame
its contents parse to; console messages and written files become
explicit fields of the result values; uncaught Python exceptions
(AssertionError, NameError, KeyError) become error values of an
Except type.
-/

namespace AccessViz

/-- A cell value of a data frame: an integer measurement or an abstract
geometry token. -/
inductive Val where
  | int : Int → Val
  | geom : Nat → Val
deriving DecidableEq, Repr

/-- A row of a data frame: an association list from column names to values. -/
abbrev Row : Type := List (String × Val)

/-- Look a column up in a row (first binding wins, as in a Python dict or a
pandas row). -/
def rowGet : Row → String → Option Val
  | [], _ => none
  | (c, v) :: rest, k => if c = k then some v else rowGet rest k

/-- Look a column up in a row and require an integer cell. -/
def rowGetInt (r : Row) (k : String) : Option Int :=
  match rowGet r k with
  | some (Val.int n) => some n
  | _ => none

/-- The elementwise test written data[col] >= 0 in the source: true exactly
on integer cells that are nonnegative. -/
def ge0 : Option Int → Bool
  | some n => decide (0 ≤ n)
  | none => false

/-- Column projection, as in selection[[c1, c2, ...]] in pandas: keep the
listed columns, in the listed order. -/
def rowRestrict (r : Row) (cs : List String) : Row :=
  cs.filterMap (fun c => (rowGet r c).map (fun v => (c, v)))

/-- Column assignment, as in selection[k] = v in pandas: any previous
binding of k is replaced by the new value. -/
def rowSetCol (r : Row) (k : String) (v : Val) : Row :=
  r.filter (fun p => decide (p.1 ≠ k)) ++ [(k, v)]

/-- A data frame: column names plus rows. -/
structure Frame where
  cols : List String
  rows : List Row
deriving DecidableEq, Repr

/-! ## filefinder (src/AccessViz.py lines 20-75)

The function reads the YKR grid shapefile, collects its YKR_ID column
into the list IDs, and loops over the requested identifiers.  An
identifier found in the grid contributes a file path built from the
folder path, the first four characters of the decimal representation of
the identifier followed by "xxx", and the file name
"travel_times_to_ <ID>.txt" (the format string on line 63 has a space
after the underscore).  An identifier not found in the grid is reported
on the console and contributes nothing to the path list.  An empty
request list fails the assertion on line 39 before anything is
processed.  The embedding takes the grid IDs as a parameter (the
content of the fixed shapefile), records the console-reported misses in
the unresolved field, and records the optional text-file manifest as a
list of its lines. -/

/-- Error values for the uncaught Python exceptions the embedded
functions can raise. -/
inductive PyError where
  | assertionError
  | nameError
  | keyError
deriving DecidableEq, Repr

/-- The file path built on lines 60-63 of the source for one identifier:
Path(folder_path, str(ID)[0:4] + "xxx", "travel_times_to_ <ID>.txt").
Note the space after the underscore, copied from the format string on
line 63. -/
def mkFilePath (folder : String) (id : Nat) : String :=
  folder ++ "/" ++ (toString id).take 4 ++ "xxx" ++ "/travel_times_to_ " ++ toString id ++ ".txt"

/-- The loop of filefinder over the requested identifiers: first component
the accumulated file paths, second component the identifiers reported as
missing from the grid. -/
def filefinderLoop (grid : List Nat) (folder : String) : List Nat → List String × List Nat
  | [] => ([], [])
  | id :: rest =>
    let acc := filefinderLoop grid folder rest
    if id ∈ grid then (mkFilePath folder id :: acc.1, acc.2)
    else (acc.1, id :: acc.2)

/-- The observable outcome of filefinder: the accumulated path list, the
identifiers reported missing, the value returned when output = "list",
and the lines of the text manifest written when output = "text" (the
pandas to_csv call writes the header "file_paths" and then one path per
line). -/
structure FFResult where
  resolved : List String
  unresolved : List Nat
  returned : Option (List String)
  manifest : Option (List String)
deriving DecidableEq, Repr

/-- Embedding of filefinder.  The grid parameter is the YKR_ID column of
the fixed grid shapefile the source reads on lines 42-44. -/
def filefinder (grid : List Nat) (ids : List Nat) (folder : String) (output : String) :
    Except PyError FFResult :=
  if ids.length > 0 then
    let r := filefinderLoop grid folder ids
    Except.ok
      { resolved := r.1
        unresolved := r.2
        returned := if output = "list" then some r.1 else none
        manifest := if output = "text" then some ("file_paths" :: r.1) else none }
  else Except.error PyError.assertionError

/-! ## tablejoiner (src/AccessViz.py lines 78-130)

For each path in the provided list the source re-reads the fixed YKR
grid shapefile, parses the semicolon-separated travel-time table at the
path, renames its from_id column to YKR_ID, and merges the grid (left
side) with the renamed table on YKR_ID — a pandas merge whose default
mode is an inner join.  The joined frame is then written: with
output_format "shp" to a file named by the last seven characters of the
path stem inside the output folder, with output_format "gpk" as a layer
of that name inside one shared geopackage; any other format writes
nothing.  The embedding takes the grid frame once (every iteration of
the source reads the same fixed file) and the CSV reader as a function
from paths to frames, and returns the list of written (name, frame)
pairs. -/

/-- The last "/"-separated component of a path. -/
def lastComponent (p : String) : String :=
  (p.splitOn "/").getLastD p

/-- The stem of a file name, as in pathlib: the name without its final
suffix, where a suffix needs a dot that is neither the first character
nor the last. -/
def pyStem (base : String) : String :=
  let cs := base.toList
  if '.' ∈ cs then
    let i := cs.length - 1 - List.indexOf '.' cs.reverse
    if 0 < i ∧ i < cs.length - 1 then String.mk (cs.take i) else base
  else base

/-- Path(path).stem in the source: stem of the last path component. -/
def stem (p : String) : String := pyStem (lastComponent p)

/-- The Python slice s[-n:]: the last n characters, or all of s when s is
shorter. -/
def pyTakeRight (s : String) (n : Nat) : String :=
  String.mk ((s.toList.reverse.take n).reverse)

/-- pandas rename(columns = dict): replace the old column name by the new
one in the column list and in every row. -/
def renameCol (old new : String) (f : Frame) : Frame :=
  { cols := f.cols.map (fun c => if c = old then new else c)
    rows := f.rows.map (fun r => r.map (fun p => (if p.1 = old then new else p.1, p.2))) }

/-- Two rows match on the join key when both carry the key and the values
are equal. -/
def keyMatch (k : String) (lr rr : Row) : Bool :=
  match rowGet lr k, rowGet rr k with
  | some v, some w => decide (v = w)
  | _, _ => false

/-- pandas left.merge(right, on = k): inner join, left frame first.  Each
output row is a matching left row followed by the right row without its
copy of the key column; output columns are the left columns followed by
the right columns without the key. -/
def Frame.merge (l r : Frame) (k : String) : Frame :=
  { cols := l.cols ++ r.cols.filter (fun c => decide (c ≠ k))
    rows := l.rows.flatMap (fun lr =>
      (r.rows.filter (fun rr => keyMatch k lr rr)).map
        (fun rr => lr ++ rr.filter (fun p => decide (p.1 ≠ k)))) }

/-- The values a frame carries in a given column. -/
def keyVals (f : Frame) (k : String) : List Val :=
  f.rows.filterMap (fun r => rowGet r k)

/-- One iteration of the tablejoiner loop up to the join (lines 104-117):
rename from_id to YKR_ID in the parsed table, then merge the grid (left)
with it on YKR_ID. -/
def tablejoinerLayer (grid : Frame) (table : Frame) : Frame :=
  Frame.merge grid (renameCol "from_id" "YKR_ID" table) "YKR_ID"

/-- Embedding of tablejoiner.  readTable maps a path to the frame its
semicolon-separated contents parse to.  The result lists the written
outputs: for "shp" one (file path, frame) pair per input path, for
"gpk" one (layer name, frame) pair per input path inside the shared
geopackage; any other output_format writes nothing for that path. -/
def tablejoiner (grid : Frame) (readTable : String → Frame)
    (output_folder : String) (output_format : String) (paths : List String) :
    Except PyError (List (String × Frame)) :=
  if paths.length > 0 then
    Except.ok (paths.filterMap (fun p =>
      let joined := tablejoinerLayer grid (readTable p)
      if output_format = "shp" then
        some (output_folder ++ "/" ++ pyTakeRight (stem p) 7, joined)
      else if output_format = "gpk" then
        some (pyTakeRight (stem p) 7, joined)
      else none))
  else Except.error PyError.assertionError

/-! ## compare (src/AccessViz.py lines 260-297)

The input branch assigns data only for file = "shp" or file = "gpkg";
any other value leaves data unassigned and the selection on line 287
raises NameError.  Reading a column absent from the frame raises
KeyError.  The selection keeps the rows where both mode columns are
nonnegative, restricts to the two mode columns plus geometry, and adds
the column diff = first mode minus second mode.  The write step on
lines 292-297 then passes the variable data — the unmodified input
frame, not the selection — to to_file; the embedding records that frame
in the written field and the locally computed selection in the
selection field. -/

/-- The row filter on line 287: both mode columns nonnegative. -/
def rowKeep (a b : String) (r : Row) : Bool :=
  ge0 (rowGetInt r a) && ge0 (rowGetInt r b)

/-- One selection row (lines 288-289): restrict to the two mode columns
plus geometry, then assign diff = first mode minus second mode. -/
def compareRow (a b : String) (r : Row) : Row :=
  let s := rowRestrict r [a, b, "geometry"]
  rowSetCol s "diff" (Val.int ((rowGetInt s a).getD 0 - (rowGetInt s b).getD 0))

/-- The selection computed on lines 287-289 of the source. -/
def compareSelection (data : Frame) (a b : String) : Frame :=
  { cols := [a, b, "geometry", "diff"]
    rows := (data.rows.filter (rowKeep a b)).map (compareRow a b) }

/-- The observable outcome of compare: the locally computed selection,
the frame passed to to_file, and the output file name. -/
structure CompareOut where
  selection : Frame
  written : Frame
  outName : String
deriving DecidableEq, Repr

/-- Embedding of compare.  a and b are the first and second entries of
the mode list argument; readFile and readLayer model gpd.read_file
without and with a layer argument. -/
def compare (readFile : String → Frame) (readLayer : String → Nat → Frame)
    (file : String) (YKR_ID : Nat) (path : String) (a b : String) :
    Except PyError CompareOut :=
  let dataOpt : Option Frame :=
    if file = "shp" then some (readFile path)
    else if file = "gpkg" then some (readLayer path YKR_ID)
    else none
  match dataOpt with
  | none => Except.error PyError.nameError
  | some data =>
    if a ∈ data.cols then
      if b ∈ data.cols then
        Except.ok
          { selection := compareSelection data a b
            written := data
            outName :=
              if file = "shp" then
                path ++ "/Acessibility_" ++ toString YKR_ID ++ "_" ++ a ++ "_vs_" ++ b ++ ".shp"
              else
                "Acessibility_" ++ toString YKR_ID ++ "_" ++ a ++ "_vs_" ++ b ++ ".gpkg" }
      else Except.error PyError.keyError
    else Except.error PyError.keyError

/-! ## visualiser (src/AccessViz.py lines 133-257)

Same input branch as compare, so the same NameError for an unsupported
file value and KeyError for a mode column absent from the frame.  The
selection keeps the rows where the mode column is nonnegative and
restricts to the mode column plus geometry.  The title on line 178 is a
chain of string comparisons that falls through to the text
"Please enter a correct value for mode" for any name outside the four
recognized mode columns — execution continues and the map is still
produced.  The plotting calls themselves are rendering internals; the
embedding records the title, the selection, and the written artifact
path (none when the map argument is neither "static" nor
"interactive"). -/

/-- The conditional title expression on line 178 (repeated on line 214). -/
def visTitle (mode : String) : String :=
  if mode = "pt_m_t" then "Public transport "
  else if mode = "car_sl_t" then "Car "
  else if mode = "walk_t" then "Walking "
  else if mode = "bike_f_t" then "Biking "
  else "Please enter a correct value for mode"

/-- The four mode-column names the title chain recognizes. -/
def recognizedMode (m : String) : Bool :=
  decide (m = "pt_m_t") || decide (m = "car_sl_t") ||
    decide (m = "walk_t") || decide (m = "bike_f_t")

/-- The observable outcome of visualiser: the map title, the selected
frame, and the path of the written artifact (none when the map argument
matches no branch and nothing is written). -/
structure RenderOut where
  title : String
  selection : Frame
  artifact : Option String
deriving DecidableEq, Repr

/-- Embedding of visualiser. -/
def visualiser (readFile : String → Frame) (readLayer : String → Nat → Frame)
    (file : String) (path : String) (YKR_ID : Nat) (mode : String)
    (output : String) (map : String) : Except PyError RenderOut :=
  let dataOpt : Option Frame :=
    if file = "shp" then some (readFile path)
    else if file = "gpkg" then some (readLayer path YKR_ID)
    else none
  match dataOpt with
  | none => Except.error PyError.nameError
  | some data =>
    if mode ∈ data.cols then
      Except.ok
        { title := visTitle mode
          selection :=
            { cols := [mode, "geometry"]
              rows := (data.rows.filter (fun r => ge0 (rowGetInt r mode))).map
                (fun r => rowRestrict r [mode, "geometry"]) }
          artifact :=
            if map = "static" then some (output ++ toString YKR_ID ++ "_" ++ map ++ ".png")
            else if map = "interactive" then some (output ++ toString YKR_ID ++ "_" ++ map ++ ".html")
            else none }
    else Except.error PyError.keyError

/-! ## Concrete frames used by the closed theorems below. -/

/-- A row whose first mode column holds the sentinel value -1. -/
def c1Row : Row := [("car_t", Val.int (-1)), ("pt_t", Val.int 5), ("geometry", Val.geom 0)]

/-- A one-row layer whose only row fails the sentinel filter on car_t. -/
def c1Frame : Frame := { cols := ["car_t", "pt_t", "geometry"], rows := [c1Row] }

/-- A layer carrying a mode column, pt_r_t, that is outside the four
names the visualiser title chain recognizes. -/
def c9Frame : Frame :=
  { cols := ["pt_r_t", "geometry"]
    rows := [[("pt_r_t", Val.int 10), ("geometry", Val.geom 0)]] }

/-- A two-row layer with one valid row and one sentinel row. -/
def demoLayer : Frame :=
  { cols := ["car_t", "pt_t", "geometry"]
    rows := [[("car_t", Val.int 15), ("pt_t", Val.int 25), ("geometry", Val.geom 0)], c1Row] }

/-- A small grid catalog frame. -/
def demoGrid : Frame :=
  { cols := ["YKR_ID", "geometry"]
    rows := [[("YKR_ID", Val.int 100), ("geometry", Val.geom 1)],
             [("YKR_ID", Val.int 200), ("geometry", Val.geom 2)]] }

/-- A small parsed travel-time table with one overlapping and one
non-overlapping identifier. -/
def demoTable : Frame :=
  { cols := ["from_id", "car_t"]
    rows := [[("from_id", Val.int 100), ("car_t", Val.int 15)],
             [("from_id", Val.int 300), ("car_t", Val.int 7)]] }

/-! ## Helper lemmas about the filefinder loop -/

theorem filefinderLoop_fst (grid : List Nat) (folder : String) (ids : List Nat) :
    (filefinderLoop grid folder ids).1
      = (ids.filter (fun i => decide (i ∈ grid))).map (mkFilePath folder) := by
  induction ids with
  | nil => rfl
  | cons id rest ih =>
    by_cases h : id ∈ grid <;> simp [filefinderLoop, h, ih]

theorem filefinderLoop_snd (grid : List Nat) (folder : String) (ids : List Nat) :
    (filefinderLoop grid folder ids).2
      = ids.filter (fun i => decide (i ∉ grid)) := by
  induction ids with
  | nil => rfl
  | cons id rest ih =>
    by_cases h : id ∈ grid <;> simp [filefinderLoop, h, ih]

theorem filefinderLoop_length (grid : List Nat) (folder : String) (ids : List Nat) :
    (filefinderLoop grid folder ids).1.length + (filefinderLoop grid folder ids).2.length
      = ids.length := by
  induction ids with
  | nil => rfl
  | cons id rest ih =>
    by_cases h : id ∈ grid <;> simp [filefinderLoop, h] <;> omega

theorem filefinderLoop_append (grid : List Nat) (folder : String) (l1 l2 : List Nat) :
    filefinderLoop grid folder (l1 ++ l2)
      = ((filefinderLoop grid folder l1).1 ++ (filefinderLoop grid folder l2).1,
         (filefinderLoop grid folder l1).2 ++ (filefinderLoop grid folder l2).2) := by
  induction l1 with
  | nil => simp [filefinderLoop]
  | cons id rest ih =>
    by_cases h : id ∈ grid <;> simp [filefinderLoop, h, ih]

/-! ## Claims about filefinder -/

/-- C2: for every non-empty identifier list, filefinder succeeds and its
resolved and unresolved sequences partition the input — their lengths
sum to the input length, the resolved sequence is the in-grid
identifiers in input order (each mapped to its file path), and the
unresolved sequence is the out-of-grid identifiers in input order. -/
theorem filefinder_partition (grid ids : List Nat) (folder output : String)
    (h : ids ≠ []) :
    ∃ r, filefinder grid ids folder output = Except.ok r
      ∧ r.resolved = (ids.filter (fun i => decide (i ∈ grid))).map (mkFilePath folder)
      ∧ r.unresolved = ids.filter (fun i => decide (i ∉ grid))
      ∧ r.resolved.length + r.unresolved.length = ids.length := by
  have hlen : ids.length > 0 := List.length_pos.mpr h
  have hok : filefinder grid ids folder output = Except.ok
      { resolved := (filefinderLoop grid folder ids).1
        unresolved := (filefinderLoop grid folder ids).2
        returned := if output = "list" then some (filefinderLoop grid folder ids).1 else none
        manifest := if output = "text" then
          some ("file_paths" :: (filefinderLoop grid folder ids).1) else none } := by
    simp only [filefinder, if_pos hlen]
  exact ⟨_, hok, filefinderLoop_fst grid folder ids, filefinderLoop_snd grid folder ids,
    filefinderLoop_length grid folder ids⟩

/-- Witness for C2 at the spec example: grid identifiers 100, 200, 300
and request [100, 200, 300, 400]. -/
theorem filefinder_partition_witness :
    ∃ r, filefinder [100, 200, 300] [100, 200, 300, 400] "data" "list" = Except.ok r
      ∧ r.resolved = ([100, 200, 300, 400].filter
          (fun i => decide (i ∈ [100, 200, 300]))).map (mkFilePath "data")
      ∧ r.unresolved = [100, 200, 300, 400].filter (fun i => decide (i ∉ [100, 200, 300]))
      ∧ r.resolved.length + r.unresolved.length = [100, 200, 300, 400].length :=
  filefinder_partition [100, 200, 300] [100, 200, 300, 400] "data" "list" (by decide)

/-- C5: the directory part of a resolved location follows the claimed
scheme (first four characters of the decimal identifier followed by
"xxx"), but the file name the code builds is
"travel_times_to_ 5797076.txt" — with a space after the underscore,
from the format string on line 63 — and not the claimed
"travel_times_to_5797076.txt".  The progress message on line 65 and the
tablejoiner docstring name the file without the space, so the space is
a slip in the code. -/
theorem filefinder_filename_deviates :
    filefinder [5797076] [5797076] "data" "list"
      = Except.ok
          { resolved := ["data/5797xxx/travel_times_to_ 5797076.txt"]
            unresolved := []
            returned := some ["data/5797xxx/travel_times_to_ 5797076.txt"]
            manifest := none }
      ∧ mkFilePath "data" 5797076 ≠ "data/5797xxx/travel_times_to_5797076.txt" := by
  constructor
  · rfl
  · decide

/-- C6: for the empty identifier list, filefinder fails fast on the
assertion of line 39 (the InvalidInputError of the specification) and
produces nothing: no ok result, hence no resolved locations and no
manifest. -/
theorem filefinder_empty_fails (grid : List Nat) (folder output : String) :
    filefinder grid [] folder output = Except.error PyError.assertionError := rfl

/-- C7: an identifier absent from the grid is recorded in the unresolved
sequence, the call still succeeds (never raises), and the identifiers
after the miss are processed exactly as they would be on their own —
resolution does not stop at the first miss. -/
theorem filefinder_miss_continues (grid pre post : List Nat) (x : Nat)
    (folder output : String) (hx : x ∉ grid) :
    ∃ r, filefinder grid (pre ++ x :: post) folder output = Except.ok r
      ∧ x ∈ r.unresolved
      ∧ r.unresolved = (filefinderLoop grid folder pre).2 ++ x :: (filefinderLoop grid folder post).2
      ∧ r.resolved = (filefinderLoop grid folder pre).1 ++ (filefinderLoop grid folder post).1 := by
  have hlen : (pre ++ x :: post).length > 0 := by simp
  have hloop := filefinderLoop_append grid folder pre (x :: post)
  have hcons : filefinderLoop grid folder (x :: post)
      = ((filefinderLoop grid folder post).1, x :: (filefinderLoop grid folder post).2) := by
    simp [filefinderLoop, hx]
  have hok : filefinder grid (pre ++ x :: post) folder output = Except.ok
      { resolved := (filefinderLoop grid folder (pre ++ x :: post)).1
        unresolved := (filefinderLoop grid folder (pre ++ x :: post)).2
        returned := if output = "list" then
          some (filefinderLoop grid folder (pre ++ x :: post)).1 else none
        manifest := if output = "text" then
          some ("file_paths" :: (filefinderLoop grid folder (pre ++ x :: post)).1) else none } := by
    simp only [filefinder, if_pos hlen]
  refine ⟨_, hok, ?_, ?_, ?_⟩
  · simp [hloop, hcons]
  · simp [hloop, hcons]
  · simp [hloop, hcons]

/-- Witness for C7: the identifier 400 is missing from the grid, is
reported unresolved, and the later identifier 200 is still resolved. -/
theorem filefinder_miss_continues_witness :
    ∃ r, filefinder [100, 200, 300] ([100] ++ 400 :: [200]) "data" "list" = Except.ok r
      ∧ 400 ∈ r.unresolved
      ∧ r.unresolved = (filefinderLoop [100, 200, 300] "data" [100]).2
          ++ 400 :: (filefinderLoop [100, 200, 300] "data" [200]).2
      ∧ r.resolved = (filefinderLoop [100, 200, 300] "data" [100]).1
          ++ (filefinderLoop [100, 200, 300] "data" [200]).1 :=
  filefinder_miss_continues [100, 200, 300] [100] [200] 400 "data" "list" (by decide)

/-! ## Helper lemmas about row lookup, restriction and assignment -/

theorem rowGetInt_eq_some {r : Row} {k : String} {x : Int} :
    rowGetInt r k = some x ↔ rowGet r k = some (Val.int x) := by
  unfold rowGetInt
  cases h : rowGet r k with
  | none => simp
  | some v => cases v <;> simp

theorem ge0_iff {o : Option Int} : ge0 o = true ↔ ∃ n, o = some n ∧ 0 ≤ n := by
  cases o <;> simp [ge0]

theorem rowGet_append (r1 r2 : Row) (k : String) :
    rowGet (r1 ++ r2) k
      = match rowGet r1 k with
        | some v => some v
        | none => rowGet r2 k := by
  induction r1 with
  | nil => simp [rowGet]
  | cons p rest ih =>
    obtain ⟨c, v⟩ := p
    by_cases hc : c = k <;> simp [rowGet, hc, ih]

theorem rowGet_filter_self (r : Row) (k : String) :
    rowGet (r.filter (fun p => !decide (p.1 = k))) k = none := by
  induction r with
  | nil => rfl
  | cons p rest ih =>
    obtain ⟨c, v⟩ := p
    by_cases hc : c = k <;> simp [List.filter_cons, hc, rowGet, ih]

theorem rowGet_filter_other (r : Row) (k a : String) (h : a ≠ k) :
    rowGet (r.filter (fun p => !decide (p.1 = k))) a = rowGet r a := by
  induction r with
  | nil => rfl
  | cons p rest ih =>
    obtain ⟨c, v⟩ := p
    by_cases hc : c = k
    · have hca : c ≠ a := fun e => h (e ▸ hc)
      simp [List.filter_cons, hc, rowGet, hca, Ne.symm h, ih]
    · by_cases hca : c = a <;> simp [List.filter_cons, hc, hca, rowGet, h, ih]

theorem rowGet_setCol_same (r : Row) (k : String) (v : Val) :
    rowGet (rowSetCol r k v) k = some v := by
  simp [rowSetCol, rowGet_append, rowGet_filter_self, rowGet]

theorem rowGet_setCol_other (r : Row) (k : String) (v : Val) (a : String) (h : a ≠ k) :
    rowGet (rowSetCol r k v) a = rowGet r a := by
  have hk : k ≠ a := fun e => h e.symm
  cases hr : rowGet r a with
  | none => simp [rowSetCol, rowGet_append, rowGet_filter_other r k a h, hr, rowGet, hk]
  | some w => simp [rowSetCol, rowGet_append, rowGet_filter_other r k a h, hr]

theorem rowGet_restrict_first (r : Row) (a b g : String) (x : Val)
    (h : rowGet r a = some x) :
    rowGet (rowRestrict r [a, b, g]) a = some x := by
  simp [rowRestrict, h, rowGet]

theorem rowGet_restrict_second (r : Row) (a b g : String) (y : Val)
    (h : rowGet r b = some y) :
    rowGet (rowRestrict r [a, b, g]) b = some y := by
  by_cases hab : a = b
  · subst hab
    exact rowGet_restrict_first r a a g y h
  · have hba : ¬ (a = b) := hab
    cases hra : rowGet r a with
    | none => simp [rowRestrict, hra, h, rowGet]
    | some x => simp [rowRestrict, hra, h, rowGet, hba]

/-! ## Helper lemmas about one compare selection row -/

theorem compareRow_diff (a b : String) (r : Row) (x y : Int)
    (hx : rowGetInt r a = some x) (hy : rowGetInt r b = some y) :
    rowGetInt (compareRow a b r) "diff" = some (x - y) := by
  have e1 : rowGetInt (rowRestrict r [a, b, "geometry"]) a = some x :=
    rowGetInt_eq_some.mpr (rowGet_restrict_first r a b "geometry" _ (rowGetInt_eq_some.mp hx))
  have e2 : rowGetInt (rowRestrict r [a, b, "geometry"]) b = some y :=
    rowGetInt_eq_some.mpr (rowGet_restrict_second r a b "geometry" _ (rowGetInt_eq_some.mp hy))
  simp only [compareRow, e1, e2, Option.getD_some]
  exact rowGetInt_eq_some.mpr (rowGet_setCol_same _ _ _)

theorem compareRow_mode_first (a b : String) (r : Row) (x : Int) (ha : a ≠ "diff")
    (hx : rowGetInt r a = some x) :
    rowGetInt (compareRow a b r) a = some x := by
  have h1 := rowGet_restrict_first r a b "geometry" _ (rowGetInt_eq_some.mp hx)
  simp only [compareRow]
  exact rowGetInt_eq_some.mpr ((rowGet_setCol_other _ _ _ _ ha).trans h1)

theorem compareRow_mode_second (a b : String) (r : Row) (y : Int) (hb : b ≠ "diff")
    (hy : rowGetInt r b = some y) :
    rowGetInt (compareRow a b r) b = some y := by
  have h1 := rowGet_restrict_second r a b "geometry" _ (rowGetInt_eq_some.mp hy)
  simp only [compareRow]
  exact rowGetInt_eq_some.mpr ((rowGet_setCol_other _ _ _ _ hb).trans h1)

/-! ## Claims about compare -/

/-- C1: the claim says the result of compare holds exactly the rows with
both modes nonnegative, restricted to the two mode columns, geometry
and diff.  The code computes such a selection locally (lines 287-289)
but then passes the variable data — the unmodified input frame — to
to_file (lines 292-297), against its own docstring.  At a one-row layer
whose row has car_t = -1 the call succeeds, the correctly filtered
selection is empty, yet the written frame is the input unchanged: the
sentinel row is present in it and it has no diff column. -/
theorem compare_persists_unfiltered :
    compare (fun _ => c1Frame) (fun _ _ => c1Frame) "shp" 5797076 "p" "car_t" "pt_t"
      = Except.ok
          { selection := { cols := ["car_t", "pt_t", "geometry", "diff"], rows := [] }
            written := c1Frame
            outName := "p/Acessibility_5797076_car_t_vs_pt_t.shp" }
      ∧ c1Row ∈ c1Frame.rows
      ∧ rowGetInt c1Row "car_t" = some (-1)
      ∧ "diff" ∉ c1Frame.cols := by
  refine ⟨rfl, ?_, ?_, ?_⟩ <;> decide

/-- C3: in the selection compare computes, every row carries
diff = first mode minus second mode, and listing the modes in the
opposite order negates every diff value (sign antisymmetry). -/
theorem compare_diff_sign (data : Frame) (a b : String)
    (ha : a ≠ "diff") (hb : b ≠ "diff") :
    (∀ r ∈ (compareSelection data a b).rows, ∃ x y : Int,
        rowGetInt r a = some x ∧ rowGetInt r b = some y
          ∧ rowGetInt r "diff" = some (x - y))
    ∧ (compareSelection data a b).rows.map (fun r => rowGetInt r "diff")
        = (compareSelection data b a).rows.map
            (fun r => (rowGetInt r "diff").map (fun d => -d)) := by
  constructor
  · intro r hr
    simp only [compareSelection, List.mem_map, List.mem_filter] at hr
    obtain ⟨r0, ⟨hr0mem, hkeep⟩, rfl⟩ := hr
    simp only [rowKeep, Bool.and_eq_true] at hkeep
    obtain ⟨hga, hgb⟩ := hkeep
    obtain ⟨x, hx, hx0⟩ := ge0_iff.mp hga
    obtain ⟨y, hy, hy0⟩ := ge0_iff.mp hgb
    exact ⟨x, y, compareRow_mode_first a b r0 x ha hx,
      compareRow_mode_second a b r0 y hb hy, compareRow_diff a b r0 x y hx hy⟩
  · have hfilter : data.rows.filter (rowKeep a b) = data.rows.filter (rowKeep b a) := by
      apply List.filter_congr
      intro r _
      simp [rowKeep, Bool.and_comm]
    simp only [compareSelection, hfilter, List.map_map]
    apply List.map_congr_left
    intro r hr
    have hkeep : rowKeep b a r = true := (List.mem_filter.mp hr).2
    simp only [rowKeep, Bool.and_eq_true] at hkeep
    obtain ⟨hgb, hga⟩ := hkeep
    obtain ⟨y, hy, hy0⟩ := ge0_iff.mp hgb
    obtain ⟨x, hx, hx0⟩ := ge0_iff.mp hga
    simp only [Function.comp_apply, compareRow_diff a b r x y hx hy,
      compareRow_diff b a r y x hy hx, Option.map_some]
    congr 1
    show x - y = -(y - x)
    omega

/-- Witness for C3 at the spec example: car_t = 15 and pt_t = 25 give
diff = -10 one way and diff = 10 the other way. -/
theorem compare_diff_sign_witness :
    (∀ r ∈ (compareSelection demoLayer "car_t" "pt_t").rows, ∃ x y : Int,
        rowGetInt r "car_t" = some x ∧ rowGetInt r "pt_t" = some y
          ∧ rowGetInt r "diff" = some (x - y))
    ∧ (compareSelection demoLayer "car_t" "pt_t").rows.map (fun r => rowGetInt r "diff")
        = (compareSelection demoLayer "pt_t" "car_t").rows.map
            (fun r => (rowGetInt r "diff").map (fun d => -d)) :=
  compare_diff_sign demoLayer "car_t" "pt_t" (by decide) (by decide)

/-! ## Helper lemmas about the merge -/

theorem keyMatch_elim {k : String} {lr rr : Row} (h : keyMatch k lr rr = true) :
    ∃ v, rowGet lr k = some v ∧ rowGet rr k = some v := by
  unfold keyMatch at h
  cases hl : rowGet lr k with
  | none => rw [hl] at h; simp at h
  | some v =>
    cases hr2 : rowGet rr k with
    | none => rw [hl, hr2] at h; simp at h
    | some w =>
      rw [hl, hr2] at h
      simp at h
      exact ⟨v, rfl, congrArg some h.symm⟩

theorem mem_merge_rows_key {l r : Frame} {k : String} {row : Row}
    (h : row ∈ (Frame.merge l r k).rows) :
    ∃ lr, lr ∈ l.rows ∧ ∃ rr, rr ∈ r.rows ∧ keyMatch k lr rr = true
      ∧ rowGet row k = rowGet lr k := by
  simp only [Frame.merge, List.mem_flatMap, List.mem_map, List.mem_filter] at h
  obtain ⟨lr, hlr, rr, ⟨hrr, hmatch⟩, hrow⟩ := h
  refine ⟨lr, hlr, rr, hrr, hmatch, ?_⟩
  subst hrow
  rw [rowGet_append]
  cases hl : rowGet lr k with
  | some w => simp
  | none => simp [keyMatch, hl] at hmatch

theorem rowGet_rename (old new : String) (r0 : Row) (hnew : rowGet r0 new = none) :
    rowGet (r0.map (fun p => (if p.1 = old then new else p.1, p.2))) new
      = rowGet r0 old := by
  induction r0 with
  | nil => rfl
  | cons p rest ih =>
    obtain ⟨c, v⟩ := p
    have hc : ¬ c = new := by
      intro e
      simp [rowGet, e] at hnew
    have hrest : rowGet rest new = none := by
      simpa [rowGet, hc] using hnew
    by_cases hco : c = old
    · simp [rowGet, hco]
    · simp [rowGet, hco, hc, ih hrest]

/-! ## Claims about tablejoiner -/

/-- C4: the join tablejoiner performs is an inner join with the grid on
the left: every identifier of the joined layer is an identifier of the
grid and a from_id value of the table, the joined layer keeps the
geometry column of the grid, and the table has its from_id column
renamed to YKR_ID before the merge.  The hypothesis states that the
parsed table does not already carry a YKR_ID column, as is the case for
the travel-time tables whose identifier column is from_id. -/
theorem tablejoiner_inner_join (grid table : Frame)
    (hT : ∀ r0 ∈ table.rows, rowGet r0 "YKR_ID" = none) :
    (∀ v ∈ keyVals (tablejoinerLayer grid table) "YKR_ID",
        v ∈ keyVals grid "YKR_ID" ∧ v ∈ keyVals table "from_id")
    ∧ ("geometry" ∈ grid.cols → "geometry" ∈ (tablejoinerLayer grid table).cols)
    ∧ tablejoinerLayer grid table
        = Frame.merge grid (renameCol "from_id" "YKR_ID" table) "YKR_ID" := by
  refine ⟨?_, ?_, rfl⟩
  · intro v hv
    simp only [keyVals, List.mem_filterMap] at hv
    obtain ⟨row, hrow, hget⟩ := hv
    obtain ⟨lr, hlr, rr, hrr, hmatch, hkey⟩ := mem_merge_rows_key hrow
    obtain ⟨w, hlw, hrw⟩ := keyMatch_elim hmatch
    rw [hkey] at hget
    have hwv : w = v := Option.some_inj.mp (hlw.symm.trans hget)
    constructor
    · simp only [keyVals, List.mem_filterMap]
      exact ⟨lr, hlr, hget⟩
    · simp only [tablejoinerLayer, renameCol, List.mem_map] at hrr
      obtain ⟨r0, hr0, hrr0⟩ := hrr
      have hfrom : rowGet r0 "from_id" = some v := by
        rw [← rowGet_rename "from_id" "YKR_ID" r0 (hT r0 hr0), hrr0, hrw]
        exact congrArg some hwv
      simp only [keyVals, List.mem_filterMap]
      exact ⟨r0, hr0, hfrom⟩
  · intro hg
    simp only [tablejoinerLayer, Frame.merge]
    exact List.mem_append_left _ hg

/-- Witness for C4 at a concrete grid and table with one overlapping
identifier. -/
theorem tablejoiner_inner_join_witness :
    (∀ v ∈ keyVals (tablejoinerLayer demoGrid demoTable) "YKR_ID",
        v ∈ keyVals demoGrid "YKR_ID" ∧ v ∈ keyVals demoTable "from_id")
    ∧ ("geometry" ∈ demoGrid.cols → "geometry" ∈ (tablejoinerLayer demoGrid demoTable).cols)
    ∧ tablejoinerLayer demoGrid demoTable
        = Frame.merge demoGrid (renameCol "from_id" "YKR_ID" demoTable) "YKR_ID" :=
  tablejoiner_inner_join demoGrid demoTable (by decide)

/-- C8: in geopackage batch mode (output_format "gpk"), tablejoiner
produces exactly one joined layer per provided file location, and the
layer of each location is named by the last seven characters of the
stem of its file name. -/
theorem tablejoiner_gpk_layers (grid : Frame) (readTable : String → Frame)
    (folder : String) (paths : List String) (h : paths ≠ []) :
    tablejoiner grid readTable folder "gpk" paths
      = Except.ok (paths.map (fun p =>
          (pyTakeRight (stem p) 7, tablejoinerLayer grid (readTable p))))
      ∧ (paths.map (fun p =>
          (pyTakeRight (stem p) 7, tablejoinerLayer grid (readTable p)))).length
        = paths.length := by
  have hlen : paths.length > 0 := List.length_pos.mpr h
  refine ⟨?_, by simp⟩
  simp only [tablejoiner, if_pos hlen, Except.ok.injEq]
  clear h hlen
  induction paths with
  | nil => rfl
  | cons p rest ih => simpa [List.filterMap_cons] using ih

/-- Witness for C8 at a path following the travel-time naming scheme:
the layer name is the identifier 5797076. -/
theorem tablejoiner_gpk_layers_witness :
    tablejoiner demoGrid (fun _ => demoTable) "out" "gpk"
        ["data/5797xxx/travel_times_to_ 5797076.txt"]
      = Except.ok (["data/5797xxx/travel_times_to_ 5797076.txt"].map (fun p =>
          (pyTakeRight (stem p) 7, tablejoinerLayer demoGrid ((fun _ => demoTable) p))))
      ∧ (["data/5797xxx/travel_times_to_ 5797076.txt"].map (fun p =>
          (pyTakeRight (stem p) 7, tablejoinerLayer demoGrid ((fun _ => demoTable) p)))).length
        = ["data/5797xxx/travel_times_to_ 5797076.txt"].length :=
  tablejoiner_gpk_layers demoGrid (fun _ => demoTable) "out"
    ["data/5797xxx/travel_times_to_ 5797076.txt"] (by decide)

/-! ## Claims about mode validation and the input branch -/

/-- C9 counterexample: the mode pt_r_t is outside the vocabulary the
visualiser title chain recognizes, yet with a layer that carries a
pt_r_t column the call does not fail: it returns a rendered artifact
whose title is the fallback complaint text.  This refutes the claim
that an unrecognized mode name fails with an error before producing
output. -/
theorem visualiser_unrecognized_mode_renders :
    visualiser (fun _ => c9Frame) (fun _ _ => c9Frame) "shp" "p" 5797076 "pt_r_t" "out/" "static"
      = Except.ok
          { title := "Please enter a correct value for mode"
            selection := { cols := ["pt_r_t", "geometry"]
                           rows := [[("pt_r_t", Val.int 10), ("geometry", Val.geom 0)]] }
            artifact := some "out/5797076_static.png" }
      ∧ recognizedMode "pt_r_t" = false :=
  ⟨rfl, rfl⟩

/-- C9 amended: a mode column absent from the layer fails with KeyError
(the MissingColumnError of the specification) before any output, in
both compare and visualiser; but no vocabulary validation happens: a
mode column present in the layer proceeds even when unrecognized, and
the visualiser then substitutes the complaint text as the title while
still producing its output. -/
theorem mode_validation (data : Frame) (path : String) (YKR_ID : Nat)
    (mode a b output map : String) :
    (mode ∉ data.cols →
      visualiser (fun _ => data) (fun _ _ => data) "shp" path YKR_ID mode output map
        = Except.error PyError.keyError)
    ∧ ((a ∉ data.cols ∨ b ∉ data.cols) →
      compare (fun _ => data) (fun _ _ => data) "shp" YKR_ID path a b
        = Except.error PyError.keyError)
    ∧ (mode ∈ data.cols → ∃ o,
      visualiser (fun _ => data) (fun _ _ => data) "shp" path YKR_ID mode output map
        = Except.ok o ∧ o.title = visTitle mode)
    ∧ (recognizedMode mode = false →
      visTitle mode = "Please enter a correct value for mode") := by
  refine ⟨?_, ?_, ?_, ?_⟩
  · intro hm
    simp [visualiser, hm]
  · intro hab
    rcases hab with ha | hb
    · simp [compare, ha]
    · by_cases ha : a ∈ data.cols
      · simp [compare, ha, hb]
      · simp [compare, ha]
  · intro hm
    refine ⟨{ title := visTitle mode
              selection :=
                { cols := [mode, "geometry"]
                  rows := (data.rows.filter (fun r => ge0 (rowGetInt r mode))).map
                    (fun r => rowRestrict r [mode, "geometry"]) }
              artifact :=
                if map = "static" then some (output ++ toString YKR_ID ++ "_" ++ map ++ ".png")
                else if map = "interactive" then
                  some (output ++ toString YKR_ID ++ "_" ++ map ++ ".html")
                else none }, ?_, rfl⟩
    simp [visualiser, hm]
  · intro hmode
    simp only [recognizedMode, Bool.or_eq_false_iff, decide_eq_false_iff_not] at hmode
    obtain ⟨⟨⟨h1, h2⟩, h3⟩, h4⟩ := hmode
    simp [visTitle, h1, h2, h3, h4]

/-- Witness for C9: on a layer with only the columns pt_r_t and
geometry, asking for the absent car_t fails with KeyError in both
functions, while the present but unrecognized pt_r_t proceeds with the
fallback title. -/
theorem mode_validation_witness :
    (visualiser (fun _ => c9Frame) (fun _ _ => c9Frame) "shp" "p" 1 "car_t" "o" "static"
        = Except.error PyError.keyError)
    ∧ (compare (fun _ => c9Frame) (fun _ _ => c9Frame) "shp" 1 "p" "car_t" "pt_t"
        = Except.error PyError.keyError)
    ∧ (∃ o, visualiser (fun _ => c9Frame) (fun _ _ => c9Frame) "shp" "p" 1 "pt_r_t" "o" "static"
        = Except.ok o ∧ o.title = visTitle "pt_r_t")
    ∧ visTitle "pt_r_t" = "Please enter a correct value for mode" :=
  ⟨(mode_validation c9Frame "p" 1 "car_t" "x" "y" "o" "static").1 (by decide),
   (mode_validation c9Frame "p" 1 "x" "car_t" "pt_t" "o" "static").2.1 (Or.inl (by decide)),
   (mode_validation c9Frame "p" 1 "pt_r_t" "x" "y" "o" "static").2.2.1 (by decide),
   (mode_validation c9Frame "p" 1 "pt_r_t" "x" "y" "o" "static").2.2.2 (by decide)⟩

/-- C10: when the file argument is neither "shp" nor "gpkg", the input
branch of compare and of visualiser assigns nothing, and the row
selection step fails with the unhandled NameError — no result and no
designated error value.  Conversely, with file equal to "shp" or
"gpkg" the selection step never raises NameError. -/
theorem invalid_file_raises (readF : String → Frame) (readL : String → Nat → Frame)
    (file : String) (YKR_ID : Nat) (path a b output map : String) :
    ((file ≠ "shp" ∧ file ≠ "gpkg") →
        compare readF readL file YKR_ID path a b = Except.error PyError.nameError
      ∧ visualiser readF readL file path YKR_ID a output map = Except.error PyError.nameError)
    ∧ ((file = "shp" ∨ file = "gpkg") →
        compare readF readL file YKR_ID path a b ≠ Except.error PyError.nameError
      ∧ visualiser readF readL file path YKR_ID a output map ≠ Except.error PyError.nameError) := by
  constructor
  · rintro ⟨h1, h2⟩
    constructor <;> simp [compare, visualiser, h1, h2]
  · rintro (h | h) <;> subst h
    · refine ⟨?_, ?_⟩
      · by_cases ha : a ∈ (readF path).cols
        · by_cases hb : b ∈ (readF path).cols <;> simp [compare, ha, hb]
        · simp [compare, ha]
      · by_cases ha : a ∈ (readF path).cols <;> simp [visualiser, ha]
    · refine ⟨?_, ?_⟩
      · by_cases ha : a ∈ (readL path YKR_ID).cols
        · by_cases hb : b ∈ (readL path YKR_ID).cols <;> simp [compare, ha, hb]
        · simp [compare, ha]
      · by_cases ha : a ∈ (readL path YKR_ID).cols <;> simp [visualiser, ha]

/-- Witness for C10: the file value "xyz" raises NameError in both
functions, while "shp" does not. -/
theorem invalid_file_raises_witness :
    (compare (fun _ => c1Frame) (fun _ _ => c1Frame) "xyz" 1 "p" "car_t" "pt_t"
        = Except.error PyError.nameError
      ∧ visualiser (fun _ => c1Frame) (fun _ _ => c1Frame) "xyz" "p" 1 "car_t" "o" "static"
        = Except.error PyError.nameError)
    ∧ (compare (fun _ => c1Frame) (fun _ _ => c1Frame) "shp" 1 "p" "car_t" "pt_t"
        ≠ Except.error PyError.nameError
      ∧ visualiser (fun _ => c1Frame) (fun _ _ => c1Frame) "shp" "p" 1 "car_t" "o" "static"
        ≠ Except.error PyError.nameError) :=
  ⟨(invalid_file_raises (fun _ => c1Frame) (fun _ _ => c1Frame) "xyz" 1 "p"
      "car_t" "pt_t" "o" "static").1 ⟨by decide, by decide⟩,
   (invalid_file_raises (fun _ => c1Frame) (fun _ _ => c1Frame) "shp" 1 "p"
      "car_t" "pt_t" "o" "static").2 (Or.inl rfl)⟩

end AccessViz
